import Mathlib

/-!
Verification development for the checkpoint-resolution and
ephemeral-object pipeline of `src/apfs-inspect.c` (function `main`).

The embedding works over decoded block values rather than raw bytes:
`apfs-inspect.c` only ever inspects a fixed set of struct fields of each
block (the struct headers and the checksum routine live in collaborator
headers outside the repository sources), so a block is modelled as the
record of exactly those decoded fields together with the verdict of the
external checksum collaborator.
-/

/-- Modelled from the spec: classification of a block's physical object
type, as computed by the StructureDecoder collaborator
(`is_nx_superblock` / `is_checkpoint_map_phys`, declared in headers that
are not under `src/`).  The decoder reads a single object-type tag, so
the three outcomes are mutually exclusive. -/
inductive BlockClass where
  | superblock
  | checkpointMap
  | other
deriving DecidableEq

/-- Modelled from the spec: the decoded view of one fixed-size block.
Each field records what `main` reads from the block through one of the
struct casts (`nx_superblock_t`, `checkpoint_map_phys_t`, `omap_phys_t`,
declared in headers not under `src/`):
`cksumValid` is the verdict of the external `is_cksum_valid` collaborator;
`objClass` the StructureDecoder classification; `magic` the `nx_magic`
field; `xid` the object header `nx_o.o_xid`; `xpDescBlocks`,
`xpDescBase`, `xpDescIndex`, `xpDescLen` the checkpoint descriptor-area
fields; `omapOid` the `nx_omap_oid` field; `omTreeType` and `omTreeOid`
the `om_tree_type` / `om_tree_oid` fields of an object-map view;
`cpmCount` the `cpm_count` field and `cpmPaddrs` the `cpm_paddr` column
of the `cpm_map` array of a checkpoint-map view. -/
structure Block where
  cksumValid : Bool
  objClass : BlockClass
  magic : Nat
  xid : Nat
  xpDescBlocks : Nat
  xpDescBase : Nat
  xpDescIndex : Nat
  xpDescLen : Nat
  omapOid : Nat
  omTreeType : Nat
  omTreeOid : Nat
  cpmCount : Nat
  cpmPaddrs : List Nat
deriving DecidableEq

/-- The all-zero block, standing for memory whose fields decode to zero. -/
def defaultBlock : Block :=
  { cksumValid := false
    objClass := BlockClass.other
    magic := 0
    xid := 0
    xpDescBlocks := 0
    xpDescBase := 0
    xpDescIndex := 0
    xpDescLen := 0
    omapOid := 0
    omTreeType := 0
    omTreeOid := 0
    cpmCount := 0
    cpmPaddrs := [] }

instance : Inhabited Block := ⟨defaultBlock⟩

/-- Modelled from the spec: the container-superblock magic signature
constant `NX_MAGIC` (little-endian "NXSB"), consumed by `main` in the
comparisons `nx_magic != NX_MAGIC`. -/
def NX_MAGIC : Nat := 0x4253584e

/-- Modelled from the spec: the storage-type bitmask applied to
`om_tree_type` at the object-map check in `main`. -/
def OBJ_STORAGETYPE_MASK : Nat := 0xc0000000

/-- Modelled from the spec: the "physical" storage-type tag compared
against the masked `om_tree_type`. -/
def OBJ_PHYSICAL : Nat := 0x40000000

/-- Modelled from the spec: the BlockStore collaborator.  `read a` is the
result of `read_blocks(dst, a, 1)`: `some b` when one block is read
successfully and decodes to `b`, `none` on a short read or I/O failure. -/
structure Store where
  read : Nat → Option Block

/-- A `read_blocks(dst, base, cnt)` call: reads the `cnt` consecutive
blocks `base, base+1, ..., base+cnt-1`, failing if any single block
fails (the C call returns fewer than `cnt` blocks in that case and
`main` aborts). -/
def readRange (s : Store) (base : Nat) : Nat → Option (List Block)
  | 0 => some []
  | Nat.succ m =>
    match s.read base, readRange s (base + 1) m with
    | some b, some rest => some (b :: rest)
    | _, _ => none

/-- The descriptor-area block count used by `main`:
`nx_xp_desc_blocks & ~(1 << 31)` on a 32-bit value, i.e. the field with
its top (is-indirect) bit masked off. -/
def maskedDescBlocks (n : Nat) : Nat := n &&& 0x7fffffff

/-- The is-indirect test of `main`: `nx_xp_desc_blocks >> 31` is nonzero
for a 32-bit value exactly when the top bit is set. -/
def isIndirect (n : Nat) : Bool := n >>> 31 != 0

/-- One iteration of the superblock scan loop of `main` (lines 115-134):
a checksum-invalid block is skipped; a checksum-valid superblock with the
correct magic replaces the running candidate `acc` exactly when its xid
is strictly greater than the xid stored in the header of the block at
index `acc`; every other block leaves the candidate unchanged. -/
def scanStep (area : List Block) (acc i : Nat) : Nat :=
  let b := area.getD i defaultBlock
  if b.cksumValid then
    if b.objClass = BlockClass.superblock then
      if b.magic = NX_MAGIC then
        if (area.getD acc defaultBlock).xid < b.xid then i else acc
      else acc
    else acc
  else acc

/-- The superblock scan of `main`: `i_latest_nx` starts at `0` and the
loop body `scanStep` runs for `i = 0, ..., area.length - 1` in order.
The result is the index whose block is then used as the winning
superblock (the `memcpy` at line 139). -/
def findLatestSuperblock (area : List Block) : Nat :=
  (List.range area.length).foldl (scanStep area) 0

/-- The winning superblock: the block at the index chosen by the scan,
as copied into `nxsb` by `main`. -/
def selectedSuperblock (area : List Block) : Block :=
  area.getD (findLatestSuperblock area) defaultBlock

/-- The checkpoint extraction of `main` (lines 162-172).  When
`start + len <= block_count` the checkpoint is the direct slice; in the
wrapping case the code copies `segment_1_len = block_count - start`
blocks from position `start` (that is the whole tail `area.drop start`)
followed by `segment_2_len = len - segment_1_len` blocks from position
`0` (that is `area.take (len - (block_count - start))`). -/
def extractCheckpoint (area : List Block) (start len : Nat) : List Block :=
  if start + len ≤ area.length then
    (area.drop start).take len
  else
    area.drop start ++ area.take (len - (area.length - start))

/-- The checkpoint materialized by `main`: extraction driven by the
winning superblock's recorded start index and length. -/
def materializeCheckpoint (area : List Block) : List Block :=
  extractCheckpoint area (selectedSuperblock area).xpDescIndex
    (selectedSuperblock area).xpDescLen

/-- The per-block classification check of the loop at lines 183-191: a
block passes when it classifies as a container superblock or as a
checkpoint map; any other classification trips the `assert`. -/
def blockClassOk (b : Block) : Bool :=
  if b.objClass = BlockClass.superblock then true
  else if b.objClass = BlockClass.checkpointMap then true
  else false

/-- Whether the classification loop of lines 183-191 completes without
tripping its `assert`. -/
def checkpointWellClassified (xp : List Block) : Bool :=
  xp.all blockClassOk

/-- The mapping addresses contributed by one checkpoint block: a
checkpoint-map block contributes `cpm_map[j].cpm_paddr` for
`j = 0, ..., cpm_count - 1`; every other block contributes nothing
(lines 212-223). -/
def blockMappings (b : Block) : List Nat :=
  if b.objClass = BlockClass.checkpointMap then
    (List.range b.cpmCount).map (fun j => b.cpmPaddrs.getD j 0)
  else []

/-- All checkpoint-mapping addresses of a checkpoint, in checkpoint
block order and per-map record order, exactly as the nested fetch loop
of lines 212-223 visits them. -/
def collectMappings : List Block → List Nat
  | [] => []
  | b :: xs => blockMappings b ++ collectMappings xs

/-- The mapping count `xp_obj_len` computed by the loop of lines
197-202: the sum of `cpm_count` over the checkpoint-map blocks of the
checkpoint. -/
def countMappings : List Block → Nat
  | [] => 0
  | b :: xs =>
    (if b.objClass = BlockClass.checkpointMap then b.cpmCount else 0)
      + countMappings xs

/-- The ephemeral-object fetch loop (lines 212-223): one
`read_blocks(_, addr, 1)` call per mapping address, in order, aborting
at the first failed read.  Returns the fetched blocks (`none` when a
read failed) together with the list of `(address, count)` read calls
actually issued. -/
def loadEphemerals (s : Store) : List Nat → Option (List Block) × List (Nat × Nat)
  | [] => (some [], [])
  | a :: rest =>
    match s.read a with
    | none => (none, [(a, 1)])
    | some b =>
      ((loadEphemerals s rest).1.map (fun l => b :: l),
        (a, 1) :: (loadEphemerals s rest).2)

/-- The ephemeral validation loop of lines 228-237: succeeds only when
every fetched object passes checksum validation; the C loop returns from
`main` at the first failure, abandoning the whole checkpoint. -/
def validateEphemerals : List Block → Bool
  | [] => true
  | b :: rest => if b.cksumValid then validateEphemerals rest else false

/-- Terminal outcomes of `main`, by the statement that ends the run.
`ioError` is every `return -1` after a failed `read_blocks` call;
`unsupportedLayout` the `return 0` of the indirect descriptor-area case
(line 99); `assertionFailed` an `assert` abort (the classification
`assert` at line 187, or the `assert(num_read = xp_obj_len)` typo at
line 225, which assigns and therefore aborts exactly when `xp_obj_len`
is zero); `checkpointAbandoned` the `return 0` after an ephemeral
checksum failure (line 235); `omapAbandoned` the `return 0` after an
object-map checksum failure (line 268); `omapNotPhysical` the `return 0`
of the non-physical storage-type case (line 280); `done` the final
`return 0` of a complete run. -/
inductive Outcome where
  | ioError
  | unsupportedLayout
  | assertionFailed
  | checkpointAbandoned
  | omapAbandoned
  | omapNotPhysical
  | done
deriving DecidableEq

/-- The process exit status produced by each outcome, from the literal
`return` statements of `main` (an `assert` abort raises `SIGABRT`, which
a caller observes as the nonzero status 134). -/
def exitCode : Outcome → Int
  | Outcome.ioError => -1
  | Outcome.unsupportedLayout => 0
  | Outcome.assertionFailed => 134
  | Outcome.checkpointAbandoned => 0
  | Outcome.omapAbandoned => 0
  | Outcome.omapNotPhysical => 0
  | Outcome.done => 0

/-- The object-map phase of `main` (lines 251-319): read the block at
the winning superblock's `nx_omap_oid`; on checksum failure stop; if the
masked `om_tree_type` is not `OBJ_PHYSICAL` stop; otherwise read the
B-tree root block at `om_tree_oid` (its checksum check is warn-only) and
finish.  Returns the outcome and the read calls issued by this phase. -/
def runOmapPhase (s : Store) (nxsb : Block) : Outcome × List (Nat × Nat) :=
  match s.read nxsb.omapOid with
  | none => (Outcome.ioError, [(nxsb.omapOid, 1)])
  | some om =>
    if om.cksumValid then
      if om.omTreeType &&& OBJ_STORAGETYPE_MASK = OBJ_PHYSICAL then
        match s.read om.omTreeOid with
        | none => (Outcome.ioError, [(nxsb.omapOid, 1), (om.omTreeOid, 1)])
        | some _ => (Outcome.done, [(nxsb.omapOid, 1), (om.omTreeOid, 1)])
      else (Outcome.omapNotPhysical, [(nxsb.omapOid, 1)])
    else (Outcome.omapAbandoned, [(nxsb.omapOid, 1)])

/-- The run of `main` after the descriptor area has been loaded (lines
112-319): scan, materialize, classify (the `assert` loop issues no
reads), count and fetch the mappings, the `assert(num_read = xp_obj_len)`
typo gate, validate the ephemeral objects, then the object-map phase.
Returns the outcome and the read calls issued after the area load. -/
def runAfterArea (s : Store) (area : List Block) : Outcome × List (Nat × Nat) :=
  if checkpointWellClassified (materializeCheckpoint area) then
    match loadEphemerals s (collectMappings (materializeCheckpoint area)) with
    | (none, t) => (Outcome.ioError, t)
    | (some objs, t) =>
      if countMappings (materializeCheckpoint area) = 0 then
        (Outcome.assertionFailed, t)
      else if validateEphemerals objs then
        ((runOmapPhase s (selectedSuperblock area)).1,
          t ++ (runOmapPhase s (selectedSuperblock area)).2)
      else (Outcome.checkpointAbandoned, t)
  else (Outcome.assertionFailed, [])

/-- The whole run of `main` over a block store, from the block-0 read
on (lines 59-319; the block-0 checksum, classification and magic checks
are warn-only and branch nowhere).  Returns the terminal outcome and
the ordered list of `read_blocks` calls as `(address, count)` pairs. -/
def runBootstrap (s : Store) : Outcome × List (Nat × Nat) :=
  match s.read 0 with
  | none => (Outcome.ioError, [(0, 1)])
  | some b0 =>
    if isIndirect b0.xpDescBlocks then
      (Outcome.unsupportedLayout, [(0, 1)])
    else
      match readRange s b0.xpDescBase (maskedDescBlocks b0.xpDescBlocks) with
      | none =>
        (Outcome.ioError, [(0, 1), (b0.xpDescBase, maskedDescBlocks b0.xpDescBlocks)])
      | some area =>
        ((runAfterArea s area).1,
          (0, 1) :: (b0.xpDescBase, maskedDescBlocks b0.xpDescBlocks)
            :: (runAfterArea s area).2)

/-! Concrete inputs used by the per-claim witnesses and counterexamples. -/

/-- A template block: checksum-valid, classification `other`, all
numeric fields zero. -/
def baseBlk : Block :=
  { cksumValid := true
    objClass := BlockClass.other
    magic := 0
    xid := 0
    xpDescBlocks := 0
    xpDescBase := 0
    xpDescIndex := 0
    xpDescLen := 0
    omapOid := 0
    omTreeType := 0
    omTreeOid := 0
    cpmCount := 0
    cpmPaddrs := [] }

/-- C1 witness area, block 0: xid marker 0. -/
def c1b0 : Block := baseBlk

/-- C1 witness area, block 1: xid marker 1. -/
def c1b1 : Block := { baseBlk with xid := 1 }

/-- C1 witness area, block 2: xid marker 2. -/
def c1b2 : Block := { baseBlk with xid := 2 }

/-- C1 witness area, block 3: xid marker 3. -/
def c1b3 : Block := { baseBlk with xid := 3 }

/-- C1 witness descriptor area of four distinguishable blocks. -/
def c1area : List Block := [c1b0, c1b1, c1b2, c1b3]

/-- C2 failing input, block 0: a checksum-invalid block that carries the
superblock tag, the correct magic and the globally greatest header xid. -/
def c2bad : Block :=
  { baseBlk with
    cksumValid := false
    objClass := BlockClass.superblock
    magic := NX_MAGIC
    xid := 100 }

/-- C2 failing input, block 1: a checksum-valid, correct-magic container
superblock with a smaller xid. -/
def c2good : Block :=
  { baseBlk with
    objClass := BlockClass.superblock
    magic := NX_MAGIC
    xid := 5 }

/-- C2 failing descriptor area. -/
def c2area : List Block := [c2bad, c2good]

/-- C3 failing input, block 0: a checksum-valid checkpoint-map block
whose object-header xid (100) exceeds every superblock xid in the area. -/
def c3cpm : Block :=
  { baseBlk with
    objClass := BlockClass.checkpointMap
    xid := 100 }

/-- C3 failing input, block 1: valid correct-magic superblock, xid 10. -/
def c3sb1 : Block :=
  { baseBlk with
    objClass := BlockClass.superblock
    magic := NX_MAGIC
    xid := 10 }

/-- C3 failing input, block 2: valid correct-magic superblock, xid 12. -/
def c3sb2 : Block :=
  { baseBlk with
    objClass := BlockClass.superblock
    magic := NX_MAGIC
    xid := 12 }

/-- C3 failing descriptor area: two valid superblocks with distinct xids
at indices 1 and 2, and a checkpoint-map block at index 0. -/
def c3area : List Block := [c3cpm, c3sb1, c3sb2]

/-- C4 failing input: a descriptor area consisting of one checksum-valid
checkpoint-map block and no superblock at all. -/
def c4cpm : Block :=
  { baseBlk with
    objClass := BlockClass.checkpointMap
    xid := 7 }

/-- C4 failing descriptor area. -/
def c4area : List Block := [c4cpm]

/-- C5 witness, block at address 0: a superblock naming a two-block
descriptor area at base address 10. -/
def c5block0 : Block :=
  { baseBlk with
    objClass := BlockClass.superblock
    magic := NX_MAGIC
    xpDescBlocks := 2
    xpDescBase := 10 }

/-- C5 witness, descriptor-area block 0: the winning superblock, whose
checkpoint is the whole two-block area and whose object map is at 50. -/
def c5sb : Block :=
  { baseBlk with
    objClass := BlockClass.superblock
    magic := NX_MAGIC
    xid := 1
    xpDescIndex := 0
    xpDescLen := 2
    omapOid := 50 }

/-- C5 witness, descriptor-area block 1: a checkpoint map with a single
mapping whose target lives at address 30. -/
def c5cpm : Block :=
  { baseBlk with
    objClass := BlockClass.checkpointMap
    cpmCount := 1
    cpmPaddrs := [30] }

/-- C5 witness: the single ephemeral object, with an invalid checksum. -/
def c5bad : Block := { baseBlk with cksumValid := false }

/-- C5 witness store. -/
def c5store : Store :=
  ⟨fun a =>
    if a = 0 then some c5block0
    else if a = 10 then some c5sb
    else if a = 11 then some c5cpm
    else if a = 30 then some c5bad
    else none⟩

/-- C10 witness, block at address 0: a superblock naming a two-block
descriptor area at base address 10. -/
def c10block0 : Block :=
  { baseBlk with
    objClass := BlockClass.superblock
    magic := NX_MAGIC
    xpDescBlocks := 2
    xpDescBase := 10 }

/-- C10 witness, descriptor-area block 0: the winning superblock; its
object map is at address 50. -/
def c10sb : Block :=
  { baseBlk with
    objClass := BlockClass.superblock
    magic := NX_MAGIC
    xid := 1
    xpDescIndex := 0
    xpDescLen := 2
    omapOid := 50 }

/-- C10 witness, descriptor-area block 1: a checkpoint map with two
mappings, at addresses 30 and 31. -/
def c10cpm : Block :=
  { baseBlk with
    objClass := BlockClass.checkpointMap
    cpmCount := 2
    cpmPaddrs := [30, 31] }

/-- C10 witness: a healthy ephemeral object. -/
def c10good : Block := baseBlk

/-- C10 witness: the one corrupt ephemeral object. -/
def c10bad : Block := { baseBlk with cksumValid := false }

/-- C10 witness store; address 50 (the object map) is readable, so the
absence of a read call at 50 is a decision of the program, not of the
store. -/
def c10store : Store :=
  ⟨fun a =>
    if a = 0 then some c10block0
    else if a = 10 then some c10sb
    else if a = 11 then some c10cpm
    else if a = 30 then some c10good
    else if a = 31 then some c10bad
    else if a = 50 then some baseBlk
    else none⟩

/-- C6 counterexample, block at address 0: a superblock naming a
two-block descriptor area at base address 100. -/
def c6block0 : Block :=
  { baseBlk with
    objClass := BlockClass.superblock
    magic := NX_MAGIC
    xpDescBlocks := 2
    xpDescBase := 100 }

/-- C6 counterexample, descriptor-area block 0: a checksum-valid,
correct-magic superblock (the scan winner) whose recorded checkpoint is
the single block at index 1. -/
def c6sb : Block :=
  { baseBlk with
    objClass := BlockClass.superblock
    magic := NX_MAGIC
    xid := 5
    xpDescIndex := 1
    xpDescLen := 1 }

/-- C6 counterexample, descriptor-area block 1: a checksum-valid block
that classifies as neither superblock nor checkpoint map. -/
def c6junk : Block := baseBlk

/-- C6 counterexample store. -/
def c6store : Store :=
  ⟨fun a =>
    if a = 0 then some c6block0
    else if a = 100 then some c6sb
    else if a = 101 then some c6junk
    else none⟩

/-- C6 amended-claim witness area, block 0: a superblock. -/
def c6okA : Block :=
  { baseBlk with
    objClass := BlockClass.superblock
    magic := NX_MAGIC }

/-- C6 amended-claim witness area, block 1: a checkpoint map. -/
def c6okB : Block := { baseBlk with objClass := BlockClass.checkpointMap }

/-- C6 amended-claim witness area, block 2: a checkpoint map. -/
def c6okC : Block :=
  { baseBlk with
    objClass := BlockClass.checkpointMap
    xid := 2 }

/-- C7 witness, block at address 0: its descriptor-block-count field has
the top (is-indirect) bit set over a payload count of 5. -/
def c7b0 : Block :=
  { baseBlk with
    objClass := BlockClass.superblock
    magic := NX_MAGIC
    xpDescBlocks := 0x80000005
    xpDescBase := 10 }

/-- C7 witness store: only block 0 exists, which suffices because the
run must not read anything further. -/
def c7store : Store := ⟨fun a => if a = 0 then some c7b0 else none⟩

/-- C8 witness checkpoint, block 0: the superblock (no mappings). -/
def c8sb : Block :=
  { baseBlk with
    objClass := BlockClass.superblock
    magic := NX_MAGIC }

/-- C8 witness checkpoint, block 1: a checkpoint map recording two
mappings, at addresses 7 and 8. -/
def c8cpm1 : Block :=
  { baseBlk with
    objClass := BlockClass.checkpointMap
    cpmCount := 2
    cpmPaddrs := [7, 8] }

/-- C8 witness checkpoint, block 2: a checkpoint map recording one
mapping, at address 9. -/
def c8cpm2 : Block :=
  { baseBlk with
    objClass := BlockClass.checkpointMap
    cpmCount := 1
    cpmPaddrs := [9] }

/-- C8 witness store: every mapping address is readable. -/
def c8store : Store :=
  ⟨fun a => if a = 7 ∨ a = 8 ∨ a = 9 then some baseBlk else none⟩

/-! Theorems. -/

/-- C1: for a descriptor area of `block_count` blocks and a request
`(start, len)`: when `start + len ≤ block_count` the extraction is the
direct slice `[start, start+len)` with exactly `len` blocks, the
boundary `start + len = block_count` taking this non-wrapping path (the
result is then the whole tail); when `start + len > block_count` the
extraction is the tail `[start, block_count)` — whose length is
`segment_1_len = block_count - start` — followed by the head
`[0, len - (block_count - start))` of length `segment_2_len`, and the
result again has exactly `len` blocks, indexable as a plain 0-based
contiguous list. -/
theorem c1_extract_correct (area : List Block) (start len : Nat)
    (hs : start < area.length) (hl : len ≤ area.length) :
    (start + len ≤ area.length →
      extractCheckpoint area start len = (area.drop start).take len
        ∧ (extractCheckpoint area start len).length = len)
    ∧ (start + len = area.length →
      extractCheckpoint area start len = area.drop start)
    ∧ (area.length < start + len →
      extractCheckpoint area start len
          = area.drop start ++ area.take (len - (area.length - start))
        ∧ (area.drop start).length = area.length - start
        ∧ (extractCheckpoint area start len).length = len) := by
  unfold extractCheckpoint
  refine ⟨fun h => ?_, fun h => ?_, fun h => ?_⟩
  · rw [if_pos h]
    exact ⟨rfl, by rw [List.length_take, List.length_drop]; omega⟩
  · rw [if_pos (le_of_eq h)]
    exact List.take_of_length_le (by rw [List.length_drop]; omega)
  · have hnot : ¬ start + len ≤ area.length := by omega
    rw [if_neg hnot]
    refine ⟨rfl, List.length_drop start area, ?_⟩
    rw [List.length_append, List.length_drop, List.length_take]
    omega

/-- C1 witness: the four-block area with `start = 2`, `len = 3` (the
spec's end-to-end scenario A): the request wraps and the extraction is
blocks `[2, 3, 0]`. -/
theorem c1_extract_correct_witness :
    2 < c1area.length ∧ 3 ≤ c1area.length
    ∧ ((2 + 3 ≤ c1area.length →
        extractCheckpoint c1area 2 3 = (c1area.drop 2).take 3
          ∧ (extractCheckpoint c1area 2 3).length = 3)
      ∧ (2 + 3 = c1area.length →
        extractCheckpoint c1area 2 3 = c1area.drop 2)
      ∧ (c1area.length < 2 + 3 →
        extractCheckpoint c1area 2 3
            = c1area.drop 2 ++ c1area.take (3 - (c1area.length - 2))
          ∧ (c1area.drop 2).length = c1area.length - 2
          ∧ (extractCheckpoint c1area 2 3).length = 3))
    ∧ extractCheckpoint c1area 2 3 = [c1b2, c1b3, c1b0] :=
  ⟨by decide, by decide, c1_extract_correct c1area 2 3 (by decide) (by decide),
    by decide⟩

/-- C2: the claim says the scan never selects a checksum-invalid block
as the winning superblock, even one with the globally greatest xid.  The
code refutes this: `i_latest_nx` starts at index 0 and candidates are
compared against the header xid of the unvalidated block at index 0, so
with a checksum-invalid block of xid 100 at index 0 and a valid
correct-magic superblock of xid 5 at index 1, the scan keeps index 0 and
the checksum-invalid block becomes the winning superblock. -/
theorem c2_scan_selects_invalid :
    findLatestSuperblock c2area = 0
    ∧ (selectedSuperblock c2area).cksumValid = false
    ∧ (c2area.getD 1 defaultBlock).cksumValid = true
    ∧ (c2area.getD 1 defaultBlock).objClass = BlockClass.superblock
    ∧ (c2area.getD 1 defaultBlock).magic = NX_MAGIC
    ∧ (c2area.getD 1 defaultBlock).xid < (selectedSuperblock c2area).xid := by
  decide

/-- C3: the claim says that with two or more checksum-valid,
correct-magic superblocks of pairwise distinct xids the scan selects the
greatest-xid superblock regardless of the other blocks in the area.  The
code refutes this: candidates are compared against the header xid of the
block at index 0 even when that block is not a superblock candidate, so
a checkpoint-map block with header xid 100 at index 0 defeats the valid
superblocks with xids 10 and 12, the scan returns index 0, and the
"winning superblock" is not a superblock at all. -/
theorem c3_scan_ignores_greatest_valid :
    findLatestSuperblock c3area = 0
    ∧ (selectedSuperblock c3area).objClass = BlockClass.checkpointMap
    ∧ (c3area.getD 1 defaultBlock).cksumValid = true
    ∧ (c3area.getD 1 defaultBlock).objClass = BlockClass.superblock
    ∧ (c3area.getD 1 defaultBlock).magic = NX_MAGIC
    ∧ (c3area.getD 2 defaultBlock).cksumValid = true
    ∧ (c3area.getD 2 defaultBlock).objClass = BlockClass.superblock
    ∧ (c3area.getD 2 defaultBlock).magic = NX_MAGIC
    ∧ (c3area.getD 1 defaultBlock).xid ≠ (c3area.getD 2 defaultBlock).xid
    ∧ findLatestSuperblock c3area ≠ 2 := by
  decide

/-- C4: the claim says the search fails with `NoValidSuperblock` when
the area holds no checksum-valid, correct-magic superblock.  The code
has no such failure path: the scan is a total function into indices, and
on an area with no superblock it returns index 0, whose block — here a
checkpoint-map block — is then used as the winning superblock. -/
theorem c4_no_failure_without_candidates :
    findLatestSuperblock c4area = 0
    ∧ (∀ b ∈ c4area, b.objClass ≠ BlockClass.superblock)
    ∧ (selectedSuperblock c4area).objClass = BlockClass.checkpointMap := by
  decide

/-- Helper: the validation loop rejects as soon as any object in the
list fails checksum validation, wherever it sits. -/
theorem validateEphemerals_false_of_mem (objs : List Block)
    (h : ∃ b ∈ objs, b.cksumValid = false) :
    validateEphemerals objs = false := by
  induction objs with
  | nil => rcases h with ⟨b, hb, _⟩; cases hb
  | cons x xs ih =>
    rcases h with ⟨b, hb, hbad⟩
    rcases List.mem_cons.mp hb with h1 | h2
    · subst h1; simp [validateEphemerals, hbad]
    · by_cases hx : x.cksumValid = true
      · simpa [validateEphemerals, hx] using ih ⟨b, h2, hbad⟩
      · have hx2 : x.cksumValid = false := by
          cases hcv : x.cksumValid
          · rfl
          · exact absurd hcv hx
        simp [validateEphemerals, hx2]

/-- Helper: a successful ephemeral load issues exactly one single-block
read call per mapping address, in order, and returns one fetched block
per mapping. -/
theorem loadEphemerals_ok (s : Store) (maps : List Nat) (objs : List Block)
    (h : (loadEphemerals s maps).1 = some objs) :
    loadEphemerals s maps = (some objs, maps.map (fun a => (a, 1)))
      ∧ objs.length = maps.length := by
  induction maps generalizing objs with
  | nil =>
    simp only [loadEphemerals, Option.some.injEq] at h
    subst h
    exact ⟨rfl, rfl⟩
  | cons a rest ih =>
    cases hr : s.read a with
    | none => rw [loadEphemerals, hr] at h; cases h
    | some b =>
      rw [loadEphemerals, hr] at h
      simp only at h
      rcases Option.map_eq_some'.mp h with ⟨l, hl, hobjs⟩
      rcases ih l hl with ⟨hpair, hlen⟩
      subst hobjs
      constructor
      · rw [loadEphemerals, hr, hpair]; simp
      · simpa using hlen

/-- Helper: whenever every mapping address is readable, the fetch loop's
read-call trace is exactly one `(address, 1)` call per mapping, in
collection order. -/
theorem loadEphemerals_trace (s : Store) (maps : List Nat)
    (h : ∀ a ∈ maps, (s.read a).isSome = true) :
    (loadEphemerals s maps).2 = maps.map (fun a => (a, 1)) := by
  induction maps with
  | nil => rfl
  | cons a rest ih =>
    rcases Option.isSome_iff_exists.mp (h a (List.mem_cons_self a rest)) with ⟨b, hb⟩
    simp [loadEphemerals, hb, ih (fun x hx => h x (List.mem_cons_of_mem a hx))]

/-- Helper: the number of collected mapping addresses is the sum of the
recorded `cpm_count` entries over the checkpoint-map blocks. -/
theorem collectMappings_length (xp : List Block) :
    (collectMappings xp).length = countMappings xp := by
  induction xp with
  | nil => rfl
  | cons b xs ih =>
    rw [collectMappings, countMappings, List.length_append, ih, blockMappings]
    split <;> simp

/-- Helper: every block of an extracted checkpoint is a block of the
descriptor area it was extracted from. -/
theorem extractCheckpoint_subset (area : List Block) (start len : Nat)
    (b : Block) (h : b ∈ extractCheckpoint area start len) : b ∈ area := by
  rw [extractCheckpoint] at h
  split at h
  · exact List.drop_subset start area (List.take_subset len (area.drop start) h)
  · rcases List.mem_append.mp h with h1 | h2
    · exact List.drop_subset start area h1
    · exact List.take_subset _ area h2

/-- Helper: once the descriptor area is loaded, if the materialized
checkpoint classifies cleanly, the ephemeral fetches all succeed, and
some fetched object fails checksum validation, then the run after the
area load ends with the checkpoint abandoned and its read calls are
exactly the one-block ephemeral fetches. -/
theorem runAfterArea_abandoned (s : Store) (area objs : List Block)
    (h3 : checkpointWellClassified (materializeCheckpoint area) = true)
    (h4 : (loadEphemerals s (collectMappings (materializeCheckpoint area))).1
        = some objs)
    (h5 : ∃ b ∈ objs, b.cksumValid = false) :
    runAfterArea s area
      = (Outcome.checkpointAbandoned,
        (collectMappings (materializeCheckpoint area)).map (fun a => (a, 1))) := by
  obtain ⟨hpair, hlen⟩ := loadEphemerals_ok s _ objs h4
  have hval : validateEphemerals objs = false := validateEphemerals_false_of_mem objs h5
  have hne : objs ≠ [] := by
    rcases h5 with ⟨b, hb, _⟩
    exact List.ne_nil_of_mem hb
  have hcnt : countMappings (materializeCheckpoint area) ≠ 0 := by
    rw [← collectMappings_length]
    have hpos : 0 < objs.length := List.length_pos.mpr hne
    omega
  rw [runAfterArea, if_pos h3, hpair]
  simp [hcnt, hval]

/-- Helper: the whole-run consequence of `runAfterArea_abandoned`, with
the block-0 read and the descriptor-area read prepended to the trace. -/
theorem runBootstrap_abandoned (s : Store) (b0 : Block) (area objs : List Block)
    (h0 : s.read 0 = some b0)
    (h1 : isIndirect b0.xpDescBlocks = false)
    (h2 : readRange s b0.xpDescBase (maskedDescBlocks b0.xpDescBlocks) = some area)
    (h3 : checkpointWellClassified (materializeCheckpoint area) = true)
    (h4 : (loadEphemerals s (collectMappings (materializeCheckpoint area))).1
        = some objs)
    (h5 : ∃ b ∈ objs, b.cksumValid = false) :
    runBootstrap s
      = (Outcome.checkpointAbandoned,
        (0, 1) :: (b0.xpDescBase, maskedDescBlocks b0.xpDescBlocks)
          :: (collectMappings (materializeCheckpoint area)).map (fun a => (a, 1))) := by
  have hr := runAfterArea_abandoned s area objs h3 h4 h5
  rw [runBootstrap, h0]
  simp [h1, h2, hr]

/-- C5: for a run whose checkpoint materialized cleanly and whose
ephemeral objects were all fetched, the presence of even a single
fetched object with an invalid checksum — wherever it sits — makes the
run end by abandoning the entire current checkpoint (outcome
`checkpointAbandoned`, the `return 0` at line 235), not by skipping
just that object. -/
theorem c5_single_failure_rejects_checkpoint (s : Store) (b0 : Block)
    (area objs : List Block)
    (h0 : s.read 0 = some b0)
    (h1 : isIndirect b0.xpDescBlocks = false)
    (h2 : readRange s b0.xpDescBase (maskedDescBlocks b0.xpDescBlocks) = some area)
    (h3 : checkpointWellClassified (materializeCheckpoint area) = true)
    (h4 : (loadEphemerals s (collectMappings (materializeCheckpoint area))).1
        = some objs)
    (h5 : ∃ b ∈ objs, b.cksumValid = false) :
    (runBootstrap s).1 = Outcome.checkpointAbandoned := by
  rw [runBootstrap_abandoned s b0 area objs h0 h1 h2 h3 h4 h5]

/-- C5 witness: a concrete container whose single ephemeral object has a
bad checksum; the whole checkpoint is rejected. -/
theorem c5_single_failure_rejects_checkpoint_witness :
    c5store.read 0 = some c5block0
    ∧ isIndirect c5block0.xpDescBlocks = false
    ∧ readRange c5store c5block0.xpDescBase (maskedDescBlocks c5block0.xpDescBlocks)
        = some [c5sb, c5cpm]
    ∧ checkpointWellClassified (materializeCheckpoint [c5sb, c5cpm]) = true
    ∧ (loadEphemerals c5store (collectMappings (materializeCheckpoint [c5sb, c5cpm]))).1
        = some [c5bad]
    ∧ (∃ b ∈ [c5bad], b.cksumValid = false)
    ∧ (runBootstrap c5store).1 = Outcome.checkpointAbandoned :=
  ⟨by decide, by decide, by decide, by decide, by decide, by decide,
    c5_single_failure_rejects_checkpoint c5store c5block0 [c5sb, c5cpm] [c5bad]
      (by decide) (by decide) (by decide) (by decide) (by decide) (by decide)⟩

/-- C10: once an ephemeral object with a bad checksum is among the
fetched objects, the program's complete read-call trace is the block-0
read, the descriptor-area read, and the one-block ephemeral fetches —
nothing after the failure is detected; in particular the trace has
exactly `2 + number-of-mappings` entries, so the container object map
and the object-map B-tree root are never fetched on that run. -/
theorem c10_no_further_reads (s : Store) (b0 : Block)
    (area objs : List Block)
    (h0 : s.read 0 = some b0)
    (h1 : isIndirect b0.xpDescBlocks = false)
    (h2 : readRange s b0.xpDescBase (maskedDescBlocks b0.xpDescBlocks) = some area)
    (h3 : checkpointWellClassified (materializeCheckpoint area) = true)
    (h4 : (loadEphemerals s (collectMappings (materializeCheckpoint area))).1
        = some objs)
    (h5 : ∃ b ∈ objs, b.cksumValid = false) :
    runBootstrap s
      = (Outcome.checkpointAbandoned,
        (0, 1) :: (b0.xpDescBase, maskedDescBlocks b0.xpDescBlocks)
          :: (collectMappings (materializeCheckpoint area)).map (fun a => (a, 1)))
    ∧ (runBootstrap s).2.length
        = 2 + (collectMappings (materializeCheckpoint area)).length := by
  have h := runBootstrap_abandoned s b0 area objs h0 h1 h2 h3 h4 h5
  refine ⟨h, ?_⟩
  rw [h]
  simp only [List.length_cons, List.length_map]
  omega

/-- C10 witness: a concrete container with two mappings whose second
ephemeral object is corrupt and whose object-map block at address 50 is
readable; the trace stops after the two ephemeral fetches and address 50
is never read. -/
theorem c10_no_further_reads_witness :
    c10store.read 0 = some c10block0
    ∧ (∃ b ∈ [c10good, c10bad], b.cksumValid = false)
    ∧ runBootstrap c10store
        = (Outcome.checkpointAbandoned,
          (0, 1) :: (c10block0.xpDescBase, maskedDescBlocks c10block0.xpDescBlocks)
            :: (collectMappings (materializeCheckpoint [c10sb, c10cpm])).map
                (fun a => (a, 1)))
    ∧ (runBootstrap c10store).2.length
        = 2 + (collectMappings (materializeCheckpoint [c10sb, c10cpm])).length :=
  ⟨by decide, by decide,
    (c10_no_further_reads c10store c10block0 [c10sb, c10cpm] [c10good, c10bad]
      (by decide) (by decide) (by decide) (by decide) (by decide) (by decide)).1,
    (c10_no_further_reads c10store c10block0 [c10sb, c10cpm] [c10good, c10bad]
      (by decide) (by decide) (by decide) (by decide) (by decide) (by decide)).2⟩

/-- C6 counterexample: a reachable run on which the classification
`assert` fails.  The descriptor area is read successfully, the scan
selects the checksum-valid, correct-magic superblock at index 0, and
that superblock's recorded checkpoint range covers the block at index 1,
which classifies as neither superblock nor checkpoint map — so the
materialized checkpoint contains a misclassified block and the run
aborts through the assertion, refuting the claim that the assertion
never fails on a reachable materialized checkpoint. -/
theorem c6_assert_fails_on_reachable :
    readRange c6store c6block0.xpDescBase (maskedDescBlocks c6block0.xpDescBlocks)
        = some [c6sb, c6junk]
    ∧ findLatestSuperblock [c6sb, c6junk] = 0
    ∧ materializeCheckpoint [c6sb, c6junk] = [c6junk]
    ∧ c6junk.objClass = BlockClass.other
    ∧ checkpointWellClassified (materializeCheckpoint [c6sb, c6junk]) = false
    ∧ (runBootstrap c6store).1 = Outcome.assertionFailed := by
  decide

/-- C6 amended: every block of a materialized checkpoint is drawn from
the descriptor area, so whenever every block of the descriptor area
classifies as a container superblock or a checkpoint-map block, every
block of any extracted checkpoint does too and the assertion succeeds;
without that assumption the assertion can fail on a reachable
checkpoint. -/
theorem c6_wellClassified_of_area_ok (area : List Block) (start len : Nat)
    (h : ∀ b ∈ area, blockClassOk b = true) :
    checkpointWellClassified (extractCheckpoint area start len) = true := by
  rw [checkpointWellClassified, List.all_eq_true]
  intro b hb
  exact h b (extractCheckpoint_subset area start len b hb)

/-- C6 amended witness: a three-block area of superblocks and checkpoint
maps; the wrapped extraction at `start = 2`, `len = 2` classifies
cleanly. -/
theorem c6_wellClassified_of_area_ok_witness :
    (∀ b ∈ [c6okA, c6okB, c6okC], blockClassOk b = true)
    ∧ checkpointWellClassified (extractCheckpoint [c6okA, c6okB, c6okC] 2 2) = true :=
  ⟨by decide, c6_wellClassified_of_area_ok [c6okA, c6okB, c6okC] 2 2 (by decide)⟩

/-- C7: when the block-0 superblock's descriptor-block-count field has
its top (is-indirect) bit set, the run reports the unsupported layout
and stops cleanly — outcome `unsupportedLayout`, exit status 0, and the
read trace is exactly the single block-0 read, so nothing further is
read from the device; when the bit is clear, the next read call loads
the descriptor area with block count equal to the field with the top
bit masked off. -/
theorem c7_indirect_unsupported (s : Store) (b0 : Block)
    (h0 : s.read 0 = some b0) :
    (isIndirect b0.xpDescBlocks = true →
      runBootstrap s = (Outcome.unsupportedLayout, [(0, 1)])
        ∧ exitCode Outcome.unsupportedLayout = 0)
    ∧ (isIndirect b0.xpDescBlocks = false →
      ∃ rest, (runBootstrap s).2
        = (0, 1) :: (b0.xpDescBase, maskedDescBlocks b0.xpDescBlocks) :: rest) := by
  constructor
  · intro h1
    exact ⟨by rw [runBootstrap, h0]; simp [h1], rfl⟩
  · intro h1
    cases hr : readRange s b0.xpDescBase (maskedDescBlocks b0.xpDescBlocks) with
    | none => exact ⟨[], by rw [runBootstrap, h0]; simp [h1, hr]⟩
    | some area =>
      exact ⟨(runAfterArea s area).2, by rw [runBootstrap, h0]; simp [h1, hr]⟩

/-- C7 witness: a block-0 superblock whose descriptor-block-count field
is `0x80000005` (top bit set); the run stops with `unsupportedLayout`
after reading only block 0. -/
theorem c7_indirect_unsupported_witness :
    c7store.read 0 = some c7b0
    ∧ isIndirect c7b0.xpDescBlocks = true
    ∧ runBootstrap c7store = (Outcome.unsupportedLayout, [(0, 1)])
    ∧ exitCode Outcome.unsupportedLayout = 0 :=
  ⟨by decide, by decide,
    ((c7_indirect_unsupported c7store c7b0 (by decide)).1 (by decide)).1,
    ((c7_indirect_unsupported c7store c7b0 (by decide)).1 (by decide)).2⟩

/-- C8: the number of collected mapping addresses equals the sum of the
recorded `cpm_count` entries over the checkpoint-map blocks of the
checkpoint, taken in checkpoint block order, and when every mapping
address is readable the fetch loop issues exactly one single-block read
call per mapping, in collection order — so the fetch-call count equals
that same sum. -/
theorem c8_collect_load_counts (xp : List Block) (s : Store)
    (h : ∀ a ∈ collectMappings xp, (s.read a).isSome = true) :
    (collectMappings xp).length = countMappings xp
    ∧ (loadEphemerals s (collectMappings xp)).2
        = (collectMappings xp).map (fun a => (a, 1)) :=
  ⟨collectMappings_length xp, loadEphemerals_trace s (collectMappings xp) h⟩

/-- C8 witness: a checkpoint of one superblock and two checkpoint maps
recording 2 and 1 mappings; the collected count is 3 and the fetch
trace is the three single-block calls at addresses 7, 8, 9 in order. -/
theorem c8_collect_load_counts_witness :
    (∀ a ∈ collectMappings [c8sb, c8cpm1, c8cpm2], (c8store.read a).isSome = true)
    ∧ ((collectMappings [c8sb, c8cpm1, c8cpm2]).length
          = countMappings [c8sb, c8cpm1, c8cpm2]
      ∧ (loadEphemerals c8store (collectMappings [c8sb, c8cpm1, c8cpm2])).2
          = (collectMappings [c8sb, c8cpm1, c8cpm2]).map (fun a => (a, 1)))
    ∧ countMappings [c8sb, c8cpm1, c8cpm2] = 3 :=
  ⟨by decide,
    c8_collect_load_counts [c8sb, c8cpm1, c8cpm2] c8store (by decide),
    by decide⟩

/-- C9 counterexample: terminal outcomes are not pairwise
distinguishable from the program's result.  The unsupported-layout stop,
the checkpoint-abandonment stop and successful completion are distinct
outcomes, yet all end `main` with the same result `return 0`. -/
theorem c9_exit_codes_collide :
    exitCode Outcome.unsupportedLayout = exitCode Outcome.done
    ∧ exitCode Outcome.checkpointAbandoned = exitCode Outcome.done
    ∧ Outcome.unsupportedLayout ≠ Outcome.done
    ∧ Outcome.checkpointAbandoned ≠ Outcome.done := by
  decide

/-- C9 amended: only the I/O-error aborts (`return -1`) and the
assertion abort are distinguishable from the clean outcomes by the
program's result; the unsupported-layout stop, the two
abandonment stops, the non-physical-object-map stop and successful
completion all exit with status 0 and are told apart only by printed
text. -/
theorem c9_exit_code_partial_distinguish :
    exitCode Outcome.ioError ≠ exitCode Outcome.done
    ∧ exitCode Outcome.ioError ≠ exitCode Outcome.unsupportedLayout
    ∧ exitCode Outcome.ioError ≠ exitCode Outcome.checkpointAbandoned
    ∧ exitCode Outcome.assertionFailed ≠ exitCode Outcome.done
    ∧ exitCode Outcome.unsupportedLayout = 0
    ∧ exitCode Outcome.checkpointAbandoned = 0
    ∧ exitCode Outcome.omapAbandoned = 0
    ∧ exitCode Outcome.omapNotPhysical = 0
    ∧ exitCode Outcome.done = 0 := by
  decide
